import Mathlib

/-!
Verification development for the conversational automation assistant
(planner / draft / review / slot-filling dialogue / executor / memory).

The definitions below are shallow embeddings of the Python source files
(agents.py, llm.py, cli.py, memory.py, contracts.py).  Machine strings are
Lean `String`, Python dicts with string keys are association lists
`List (String × String)`, Python float scores are `ℚ` (the rubric only adds
and subtracts decimal literals), `Optional` values are `Option`, and code
that raises `RuntimeError` is modelled with `Except String` / `Option`.
Nondeterministic uuid identifiers and file-system plumbing are omitted or
abstracted; each abstraction is noted at the definition it concerns.
-/

/-- Python truthiness of an `Optional[str]` value: `None` and the empty
string are falsy, every other string is truthy. -/
def truthy : Option String → Bool
  | none => false
  | some s => !(s == "")

/-- Containment of one character list in another, as a contiguous run.
This is the semantics of the Python expression `needle in hay` on strings. -/
def charsContain (hay needle : List Char) : Bool :=
  match hay with
  | [] => needle.isEmpty
  | _ :: t => needle.isPrefixOf hay || charsContain t needle

/-- Python `needle in hay` for strings: contiguous substring test. -/
def strContains (hay needle : String) : Bool :=
  charsContain hay.toList needle.toList

/-- The single-quote character as a one-character string (code point 39). -/
def squote : String :=
  String.singleton (Char.ofNat 39)

/-- Python `str.lower()` (ASCII case folding), computed on the character
list so that it reduces inside the kernel. -/
def pyLower (s : String) : String :=
  String.mk (s.toList.map Char.toLower)

/-- Python `str.strip()`: remove leading and trailing whitespace, computed
on the character list so that it reduces inside the kernel. -/
def pyStrip (s : String) : String :=
  String.mk (((s.toList.dropWhile Char.isWhitespace).reverse.dropWhile
    Char.isWhitespace).reverse)

/-- Split a character list at every comma; empty pieces are kept, as with
Python `str.split(",")`. -/
def splitCharsComma (cs : List Char) : List (List Char) :=
  match cs with
  | [] => [[]]
  | c :: t =>
    let r := splitCharsComma t
    if c = ',' then [] :: r
    else
      match r with
      | [] => [[c]]
      | h :: t2 => (c :: h) :: t2

/-- Python `s.split(",")`. -/
def pySplitComma (s : String) : List String :=
  (splitCharsComma s.toList).map (fun cs => String.mk cs)

/- Section: Review rubric (agents.py, ReviewerAgent) -/

/-- contracts.py `TaskType`. -/
inductive TaskType
  | email
  | crm_contact
  | general_response
deriving DecidableEq

/-- contracts.py `ConfidenceLevel`. -/
inductive ConfidenceLevel
  | low
  | medium
  | high
deriving DecidableEq

/-- contracts.py `Draft`, restricted to the fields the reviewer reads.
`content` is the string-keyed content mapping; the uuid fields
`draft_id` / `plan_id` and the metadata are omitted as inert identifiers. -/
structure Draft where
  task_type : TaskType
  content : List (String × String)

/-- contracts.py `ReviewResult` (without the inert `draft_id`). -/
structure ReviewResult where
  confidence_score : ℚ
  confidence_level : ConfidenceLevel
  issues : List String
  suggestions : List String
  approved : Bool
  requires_user_review : Bool

/-- Lookup of a content key, mirroring Python `content.get(k)`. -/
def getContent (content : List (String × String)) (k : String) : Option String :=
  content.lookup k

/-- agents.py `ReviewerAgent._review_email`.  Returns
(issues, suggestions, confidence score).  The sequential Python
`confidence_score -= p` updates are written as one subtraction chain;
the final `max(0.0, confidence_score)` is the outer `max`. -/
def reviewEmail (content : List (String × String)) : List String × List String × ℚ :=
  let toF := getContent content "to"
  let subjectF := getContent content "subject"
  let bodyF := getContent content "body"
  let bodyS := bodyF.getD ""
  let b1 := !(truthy toF)
  let b2 := !(truthy subjectF)
  let b3 := !(truthy bodyF) || decide (bodyS.length < 10)
  let b4 := truthy toF && !(strContains (toF.getD "") "@")
  let b5 := truthy bodyF && strContains (pyLower bodyS) "placeholder"
  let issues :=
    (if b1 then ["Missing recipient email address"] else []) ++
    (if b2 then ["Missing email subject"] else []) ++
    (if b3 then ["Email body is too short or missing"] else []) ++
    (if b4 then ["Invalid email address format"] else [])
  let suggestions := if b5 then ["Replace placeholder text with actual content"] else []
  let score : ℚ := 1 - (if b1 then 3/10 else 0) - (if b2 then 2/10 else 0)
      - (if b3 then 3/10 else 0) - (if b4 then 2/10 else 0) - (if b5 then 1/10 else 0)
  (issues, suggestions, max 0 score)

/-- Models Python `"placeholder" in str(content).lower()` for a string-keyed
dict: the word appears in the printed dict iff it appears in some key or some
value, because the dict separators (quotes, commas, colons, braces) do not
occur inside the word "placeholder". -/
def contentHasPlaceholder (content : List (String × String)) : Bool :=
  content.any (fun kv =>
    strContains (pyLower kv.1) "placeholder" || strContains (pyLower kv.2) "placeholder")

/-- agents.py `ReviewerAgent._review_crm`. -/
def reviewCrm (content : List (String × String)) : List String × List String × ℚ :=
  let get := getContent content
  let action := (get "action").getD "create_contact"
  let actionPart :
      List String × ℚ :=
    if action = "create_contact" then
      let a : List String × ℚ :=
        if !(truthy (get "name")) && !(truthy (get "email")) then
          (["Missing contact name or email"], 4/10)
        else ([], 0)
      let b : List String × ℚ :=
        if truthy (get "email") && !(strContains ((get "email").getD "") "@") then
          (["Invalid email format"], 2/10)
        else ([], 0)
      (a.1 ++ b.1, a.2 + b.2)
    else if action = "update_contact" then
      if !(truthy (get "contact_id")) then (["Missing contact ID for update"], 4/10)
      else ([], 0)
    else if action = "search_contacts" then
      if !(truthy (get "query")) then (["Missing search query"], 3/10)
      else ([], 0)
    else ([], 0)
  let generalPart : List String × ℚ :=
    if (get "email").isSome && truthy (get "email")
        && !(strContains ((get "email").getD "") "@") then
      (["Invalid email format"], 2/10)
    else ([], 0)
  let placeholderPart : List String × ℚ :=
    if contentHasPlaceholder content then
      (["Replace placeholder values with actual data"], 2/10)
    else ([], 0)
  let phoneSugg :=
    if action = "create_contact" && truthy (get "email") && !(truthy (get "phone")) then
      ["Consider adding phone number for better contact info"]
    else []
  let notesSugg :=
    if (action = "create_contact" || action = "update_contact") && !(truthy (get "notes")) then
      ["Consider adding notes for context"]
    else []
  (actionPart.1 ++ generalPart.1,
   placeholderPart.1 ++ phoneSugg ++ notesSugg,
   max 0 (1 - actionPart.2 - generalPart.2 - placeholderPart.2))

/-- agents.py `ReviewerAgent._review_general`. -/
def reviewGeneral (content : List (String × String)) : List String × List String × ℚ :=
  let message := pyStrip ((getContent content "message").getD "")
  if message = "" then (["Missing response message"], [], 4/10)
  else if message.length < 5 then (["Response is too short"], [], 6/10)
  else ([], [], 1)

/-- agents.py `ReviewerAgent.review_draft`, tail of the function: maps the
rubric triple to a `ReviewResult` using the configured threshold
(default 0.7 in the source). -/
def mkReview (threshold : ℚ) (r : List String × List String × ℚ) : ReviewResult :=
  let score := r.2.2
  let level :=
    if score ≥ 8/10 then ConfidenceLevel.high
    else if score ≥ 6/10 then ConfidenceLevel.medium
    else ConfidenceLevel.low
  { confidence_score := score
    confidence_level := level
    issues := r.1
    suggestions := r.2.1
    approved := decide (score ≥ threshold) && decide (r.1.length = 0)
    requires_user_review := decide (score < threshold) || decide (0 < r.1.length) }

/-- agents.py `ReviewerAgent.review_draft`: dispatch on the task type and
derive level, approval, and the user-review flag. -/
def review_draft (threshold : ℚ) (d : Draft) : ReviewResult :=
  match d.task_type with
  | TaskType.email => mkReview threshold (reviewEmail d.content)
  | TaskType.crm_contact => mkReview threshold (reviewCrm d.content)
  | TaskType.general_response => mkReview threshold (reviewGeneral d.content)

/- Section: Planner (agents.py, PlannerAgent) -/

/-- contracts.py `ToolType`. -/
inductive ToolType
  | gmail
  | pipedrive
  | calendly
  | general
deriving DecidableEq

/-- The `.value` string of a `ToolType` member. -/
def ToolType.value : ToolType → String
  | ToolType.gmail => "gmail"
  | ToolType.pipedrive => "pipedrive"
  | ToolType.calendly => "calendly"
  | ToolType.general => "general"

/-- The structured JSON object returned by `LLMClient.analyze_user_query`
(llm.py).  The source validates that all of these fields are present before
returning, so they are mandatory here.  Extracted parameter values are
modelled as strings. -/
structure Analysis where
  intent : String
  primary_tool : String
  extracted_parameters : List (String × String)
  missing_information : List String

/-- The intent-classifier collaborator: `analyze_user_query(query, tool_names,
available_documents)`.  `none` models the call raising `RuntimeError`, the
only exception class `analyze_user_query` lets escape (llm.py converts every
underlying failure to `RuntimeError`). -/
abbrev Classifier := String → List String → List String → Option Analysis

/-- contracts.py `TaskStep` without the nondeterministic uuid `step_id` and
with no `dependencies` (the planner never sets them). -/
structure TaskStep where
  description : String
  tool_required : ToolType
  parameters : List (String × String)
deriving DecidableEq

/-- contracts.py `Plan` without the uuid `plan_id`. -/
structure Plan where
  user_query : String
  steps : List TaskStep
  required_tools : List ToolType
  missing_info : List String
  is_complete : Bool

/-- agents.py `PlannerAgent._preprocess_query_with_documents`.  The documents
directory is abstracted as an association list of (file name, stripped file
content); file enumeration and reading are environment plumbing.  The source
appends the first mentioned document whose loaded content is non-empty and
stops at it. -/
def preprocessQueryWithDocuments (docs : List (String × String)) (query : String) : String :=
  match docs.find? (fun d => strContains (pyLower query) (pyLower d.1) && !(d.2 == "")) with
  | some d =>
      query ++ "\n\nDocument " ++ squote ++ d.1 ++ squote ++ " content:\n" ++ d.2
  | none => query

/-- agents.py `PlannerAgent._analyze_query` tool name mapping:
`tool_mapping.get(name, ToolType.GENERAL)`. -/
def toolFromName (s : String) : ToolType :=
  if s = "gmail" then ToolType.gmail
  else if s = "pipedrive" then ToolType.pipedrive
  else if s = "calendly" then ToolType.calendly
  else ToolType.general

/-- agents.py `PlannerAgent._get_step_description`. -/
def get_step_description (intent : String) (tool : ToolType) : String :=
  if intent = "send_email" then "Send email based on user request"
  else if intent = "create_contact" then "Create contact in Pipedrive CRM"
  else if intent = "check_calendar" then "Check Calendly availability"
  else if intent = "general_assistance" then "Process general user request"
  else "Execute " ++ tool.value ++ " task"

/-- agents.py `PlannerAgent._analyze_query`.  With no LLM client the function
raises `RuntimeError` before its try block, so that error is not caught by
the fallback handler; with a client, a classifier failure (`none`) is caught
and replaced by the single GENERAL fallback step. -/
def analyzeQuery (llm : Option Classifier) (docs : List (String × String)) (query : String)
    (available_tools : List ToolType) : Except String (List TaskStep) :=
  match llm with
  | none => Except.error "LLM client is required for query analysis but not initialized."
  | some analyze =>
    let enhanced := preprocessQueryWithDocuments docs query
    let names := available_tools.map ToolType.value
    let docNames := docs.map Prod.fst
    match analyze enhanced names docNames with
    | some analysis =>
        Except.ok [{ description := get_step_description analysis.intent
                        (toolFromName analysis.primary_tool)
                     tool_required := toolFromName analysis.primary_tool
                     parameters := analysis.extracted_parameters }]
    | none =>
        Except.ok [{ description := "Process general user request"
                     tool_required := ToolType.general
                     parameters := [("action", "general_assistance"), ("query", query)] }]

/-- agents.py `PlannerAgent._identify_missing_info`, fallback branch: basic
per-step validation used when the classifier call raises. -/
def basicMissingInfo (steps : List TaskStep) : List String :=
  steps.foldl
    (fun acc step =>
      if step.tool_required = ToolType.gmail then
        acc ++ (if truthy (step.parameters.lookup "to") then [] else ["email recipient"])
            ++ (if truthy (step.parameters.lookup "subject")
                  || truthy (step.parameters.lookup "email_content_purpose") then []
                else ["email subject and content purpose"])
      else if step.tool_required = ToolType.pipedrive then
        acc ++ (if truthy (step.parameters.lookup "email")
                  && truthy (step.parameters.lookup "name") then []
                else ["contact details (name and email)"])
      else acc)
    []

/-- agents.py `PlannerAgent._identify_missing_info`. -/
def identifyMissingInfo (llm : Option Classifier) (docs : List (String × String))
    (query : String) (steps : List TaskStep) : List String :=
  match llm, steps with
  | none, _ => []
  | some _, [] => []
  | some analyze, ss =>
    let enhanced := preprocessQueryWithDocuments docs query
    let names := ss.map (fun s => s.tool_required.value)
    match analyze enhanced names (docs.map Prod.fst) with
    | some analysis => analysis.missing_information
    | none => basicMissingInfo ss

/-- agents.py `PlannerAgent.create_plan`.  The uuid `plan_id` is omitted;
`required_tools` models `list(set(...))` by `dedup` (the set-to-list
ordering is not observable by any claim). -/
def create_plan (llm : Option Classifier) (docs : List (String × String))
    (user_query : String) (available_tools : List ToolType) : Except String Plan :=
  match analyzeQuery llm docs user_query available_tools with
  | Except.error e => Except.error e
  | Except.ok steps =>
    let required_tools := (steps.map (fun s => s.tool_required)).dedup
    let missing_info := identifyMissingInfo llm docs user_query steps
    Except.ok { user_query := user_query
                steps := steps
                required_tools := required_tools
                missing_info := missing_info
                is_complete := decide (missing_info.length = 0) }

/- Section: Email content validation (llm.py, LLMClient) -/

/-- llm.py `_validate_email_content`: the comma-delimited fragments of the
lowercased user query, stripped, keeping only those longer than 10
characters. -/
def queryPhrases (q : String) : List String :=
  ((pySplitComma (pyLower q)).map pyStrip).filter (fun p => 10 < p.length)

/-- llm.py `_validate_email_content`: assistant-framing phrases. -/
def problematicPhrases : List String :=
  ["the user asked", "user request", "you asked me to", "as requested by",
   "the user wants", "user query", "based on your request to"]

/-- llm.py `_validate_email_content`: recognised greeting tokens. -/
def greetingTokens : List String :=
  ["hello", "hi", "dear", "greetings"]

/-- llm.py `_validate_email_content`: recognised closing tokens. -/
def closingTokens : List String :=
  ["regards", "sincerely", "best", "thank you", "thanks"]

/-- llm.py `LLMClient._validate_email_content`.  An `Except.error` models the
`RuntimeError` the source raises at the first failing check; `Except.ok ()`
models the function returning normally (the pair is accepted). -/
def validate_email_content (user_query subject body : String) : Except String Unit :=
  let bodyLower := pyLower body
  if (queryPhrases user_query).any (fun p => strContains bodyLower p) then
    Except.error "Email content contains raw user request. Please rephrase your request more naturally."
  else if problematicPhrases.any (fun p => strContains bodyLower p) then
    Except.error "Email content sounds like an assistant response. Please try rephrasing your request."
  else if (pyStrip subject).length < 3 then
    Except.error "Email subject is too short or empty"
  else if (pyStrip body).length < 20 then
    Except.error "Email body is too short to be professional"
  else if !(greetingTokens.any (fun g => strContains bodyLower g)) then
    Except.error "Email lacks proper greeting"
  else if !(closingTokens.any (fun c => strContains bodyLower c)) then
    Except.error "Email lacks proper closing"
  else Except.ok ()

/-- llm.py `LLMClient.generate_email_content`, response-received path: the
model returned a JSON object whose optional `subject` / `body` fields are the
two arguments (`none` models a missing key, Python `data.get` returning
`None`).  A falsy subject or body raises inside the try block, and any
`RuntimeError` from `_validate_email_content` is also caught by the generic
`except Exception` handler, so both surface re-wrapped with the
"Unexpected error in email generation" prefix.  On success the source strips
and returns the pair. -/
def generate_email_content (subjectOpt bodyOpt : Option String) (user_query : String) :
    Except String (String × String) :=
  if truthy subjectOpt && truthy bodyOpt then
    let subject := subjectOpt.getD ""
    let body := bodyOpt.getD ""
    match validate_email_content user_query subject body with
    | Except.ok _ => Except.ok (pyStrip subject, pyStrip body)
    | Except.error e => Except.error ("Unexpected error in email generation: " ++ e)
  else
    Except.error "Unexpected error in email generation: LLM failed to generate complete email content (missing subject or body)"

/- Section: Slot-filling dialogue (cli.py, CrewAIWorkflowCLI) -/

/-- cli.py `self.pending_email`: the pending email slots.  The dict key
named "to" in the source is spelled `toField` here because `to` is a
reserved token in this Lean environment.  The two extra keys
`content_requirement` / `document_reference` are only inserted by the
hybrid path and are dropped again by every clear; they take part in the
`any(self.pending_email.values())` routing check. -/
structure PendingEmail where
  toField : Option String
  subject : Option String
  content : Option String
  original_query : Option String
  content_requirement : Option String
  document_reference : Option String
deriving DecidableEq

/-- cli.py `self.pending_crm`: the pending CRM contact slots. -/
structure PendingCrm where
  name : Option String
  email : Option String
  original_query : Option String
deriving DecidableEq

/-- The freshly reset email dict `{to: None, subject: None, content: None,
original_query: None}` (extra keys absent). -/
def emptyPendingEmail : PendingEmail :=
  { toField := none, subject := none, content := none, original_query := none,
    content_requirement := none, document_reference := none }

/-- The freshly reset CRM dict. -/
def emptyPendingCrm : PendingCrm :=
  { name := none, email := none, original_query := none }

/-- Oracle bundling the impure text-analysis primitives used by
cli.py `_extract_email_info`: `findEmails` is `re.findall(email_pattern, text)`,
`matchSubject` is the subject regex search (already stripped group), and
`findDocument` / `loadDoc` abstract the document-detection block and the
file read (`loadDoc` returning `none` models the read raising).  The claims
proved about the extraction hold for every behaviour of these primitives,
so the regex engine and file system are quantified over rather than
re-implemented. -/
structure EmailExtractOracle where
  findEmails : String → List String
  matchSubject : String → Option String
  findDocument : String → Option String
  loadDoc : String → Option String

/-- cli.py `CrewAIWorkflowCLI._extract_email_info`: opportunistic multi-field
extraction from free text.  Every assignment is guarded by the target slot
being empty, exactly as in the source. -/
def extract_email_info (o : EmailExtractOracle) (p0 : PendingEmail) (text : String) :
    PendingEmail :=
  let p1 := match o.findEmails text with
    | [] => p0
    | e :: _ => if truthy p0.toField then p0 else { p0 with toField := some e }
  let p2 := if strContains (pyLower text) "subject" then
      match o.matchSubject text with
      | some s => if truthy p1.subject then p1 else { p1 with subject := some s }
      | none => p1
    else p1
  match o.findDocument text, truthy p2.content with
  | some f, false =>
      match o.loadDoc f with
      | some raw => { p2 with content := some raw }
      | none => p2
  | some _, true => p2
  | none, _ =>
      if !(truthy p2.content) && decide (20 < text.length)
          && !(["send email", "send an email", "help me send"].any
                (fun ph => strContains (pyLower text) ph)) then
        { p2 with content := some text }
      else p2

/-- cli.py `CrewAIWorkflowCLI._extract_crm_info`, with the email regex and
the name regex abstracted as oracles (same reasoning as for
`EmailExtractOracle`). -/
def extract_crm_info (findEmails : String → List String)
    (matchName : String → Option String) (c0 : PendingCrm) (text : String) : PendingCrm :=
  let c1 := match findEmails text with
    | [] => c0
    | e :: _ => if truthy c0.email then c0 else { c0 with email := some e }
  if strContains (pyLower text) "name" && !(truthy c1.name) then
    match matchName text with
    | some n => { c1 with name := some n }
    | none => c1
  else c1

/-- cli.py `_get_missing_email_info`. -/
def get_missing_email_info (p : PendingEmail) : List String :=
  (if truthy p.toField then [] else ["recipient email"]) ++
  (if truthy p.subject then [] else ["subject"]) ++
  (if truthy p.content then [] else ["content"])

/-- cli.py `_get_missing_crm_info`. -/
def get_missing_crm_info (c : PendingCrm) : List String :=
  (if truthy c.name then [] else ["contact name"]) ++
  (if truthy c.email then [] else ["email address"])

/-- cli.py `_prompt_next_email_field`: `some ((namespace, field), question)`
records the single `current_prompt_field` assignment and the single console
question the taken branch performs; `none` is the fall-through with no
prompt. -/
def prompt_next_email_field (p : PendingEmail) : Option ((String × String) × String) :=
  let missing := get_missing_email_info p
  if missing.contains "recipient email" then
    some (("email", "to"), "Please provide the recipient email address:")
  else if missing.contains "subject" then
    some (("email", "subject"), "What should be the email subject?")
  else if missing.contains "content" then
    some (("email", "content"), "What should be the email content?")
  else none

/-- cli.py `_prompt_next_crm_field`. -/
def prompt_next_crm_field (c : PendingCrm) : Option ((String × String) × String) :=
  let missing := get_missing_crm_info c
  if missing.contains "contact name" then
    some (("crm", "name"), "Please provide the contact name:")
  else if missing.contains "email address" then
    some (("crm", "email"), "Please provide the contact email address:")
  else none

/-- Written from the claim and spec text, not from the source: ask for the
first unfilled email field in the fixed order recipient, subject, content
(never a filled one); used to compare against `prompt_next_email_field`. -/
def spec_email_prompt_order (p : PendingEmail) : Option ((String × String) × String) :=
  if !(truthy p.toField) then
    some (("email", "to"), "Please provide the recipient email address:")
  else if !(truthy p.subject) then
    some (("email", "subject"), "What should be the email subject?")
  else if !(truthy p.content) then
    some (("email", "content"), "What should be the email content?")
  else none

/-- Written from the claim and spec text, not from the source: ask for the
first unfilled CRM field in the fixed order contact name, contact email. -/
def spec_crm_prompt_order (c : PendingCrm) : Option ((String × String) × String) :=
  if !(truthy c.name) then
    some (("crm", "name"), "Please provide the contact name:")
  else if !(truthy c.email) then
    some (("crm", "email"), "Please provide the contact email address:")
  else none

/-- Whether the slot a prompt target designates is already filled. -/
def emailFieldFilled (p : PendingEmail) (f : String × String) : Bool :=
  if f = ("email", "to") then truthy p.toField
  else if f = ("email", "subject") then truthy p.subject
  else if f = ("email", "content") then truthy p.content
  else false

/-- Whether the slot a CRM prompt target designates is already filled. -/
def crmFieldFilled (c : PendingCrm) (f : String × String) : Bool :=
  if f = ("crm", "name") then truthy c.name
  else if f = ("crm", "email") then truthy c.email
  else false

/- Section: Turn routing and cancellation (cli.py, main_loop and
handle_missing_info_response) -/

/-- The mutable session state of `CrewAIWorkflowCLI` that the dialogue
touches: the two pending dicts, `current_task_type` and
`current_prompt_field`. -/
structure CliState where
  pending_email : PendingEmail
  pending_crm : PendingCrm
  current_task_type : Option String
  current_prompt_field : Option (String × String)
deriving DecidableEq

/-- cli.py `_clear_all_pending`: every piece of dialogue state is reset. -/
def clear_all_pending (_st : CliState) : CliState :=
  { pending_email := emptyPendingEmail
    pending_crm := emptyPendingCrm
    current_task_type := none
    current_prompt_field := none }

/-- cli.py `handle_missing_info_response`.  The two task-specific follow-up
handlers (`_handle_email_followup`, `_handle_crm_followup`) are passed in as
functions so the cancellation behaviour is proved for every behaviour of
theirs; each returns the Python boolean together with the updated state. -/
def handle_missing_info_response
    (emailFollowup crmFollowup : CliState → String → Bool × CliState)
    (st : CliState) (user_input : String) : Bool × CliState :=
  if !(truthy st.current_task_type) then (false, st)
  else
    let stripped := pyStrip user_input
    if pyLower stripped = "cancel" ∨ pyLower stripped = "stop" then
      (true, clear_all_pending st)
    else if st.current_task_type = some "email" then emailFollowup st stripped
    else if st.current_task_type = some "crm" then crmFollowup st stripped
    else (false, st)

/-- The command keywords recognised by the main loop. -/
def commandWords : List String :=
  ["help", "status", "memory", "clear", "quit", "exit", "q"]

/-- cli.py main loop routing check `any(self.pending_email.values())`. -/
def pendingEmailAny (p : PendingEmail) : Bool :=
  truthy p.toField || truthy p.subject || truthy p.content
    || truthy p.original_query || truthy p.content_requirement
    || truthy p.document_reference

/-- Where one iteration of the cli.py main loop sends the user input. -/
inductive Route
  | skip
  | handledPending
  | quitLoop
  | showHelp
  | showStatus
  | showMemory
  | clearScreen
  | newRequest
deriving DecidableEq

/-- cli.py main loop, portion after the pending-task block: command
dispatch, the `any(pending_email.values())` re-entry into the dialogue
handler, and finally `process_user_request` on a brand-new request. -/
def afterCommands (emailFollowup crmFollowup : CliState → String → Bool × CliState)
    (st : CliState) (lower user_input : String) : Route × CliState :=
  if lower = "quit" ∨ lower = "exit" ∨ lower = "q" then (Route.quitLoop, st)
  else if lower = "help" then (Route.showHelp, st)
  else if lower = "status" then (Route.showStatus, st)
  else if lower = "memory" then (Route.showMemory, st)
  else if lower = "clear" then (Route.clearScreen, st)
  else if pendingEmailAny st.pending_email then
    match handle_missing_info_response emailFollowup crmFollowup st user_input with
    | (true, st2) => (Route.handledPending, st2)
    | (false, st2) => (Route.newRequest, st2)
  else (Route.newRequest, st)

/-- cli.py `main_loop`, one iteration on one user input.  The argument is
the already-stripped result of `Prompt.ask(...).strip()`.  Empty input is
skipped; with a pending task and a non-command input the dialogue handler
runs first and, if it reports the input handled, the loop continues. -/
def main_loop_route (emailFollowup crmFollowup : CliState → String → Bool × CliState)
    (st : CliState) (user_input : String) : Route × CliState :=
  if user_input = "" then (Route.skip, st)
  else
    let lower := pyLower user_input
    if truthy st.current_task_type && !(commandWords.contains lower) then
      match handle_missing_info_response emailFollowup crmFollowup st user_input with
      | (true, st1) => (Route.handledPending, st1)
      | (false, st1) => afterCommands emailFollowup crmFollowup st1 lower user_input
    else afterCommands emailFollowup crmFollowup st lower user_input

/- Section: Executor -/

/-- The result record a tool collaborator returns from `execute`
(contracts.py `ToolExecution` has `success` / `result` / `error`). -/
structure ExecResult where
  success : Bool
  result : Option (List (String × String))
  error : Option String

/-- contracts.py `ToolExecution`, without the nondeterministic
`execution_id`. -/
structure ToolExecution where
  tool_type : ToolType
  action : String
  parameters : List (String × String)
  success : Bool
  result : Option (List (String × String))
  error : Option String

/-- Parameter merge used by the Executor: draft content values take
precedence over step parameters on key collision. -/
def mergeParams (stepParams draftContent : List (String × String)) :
    List (String × String) :=
  stepParams.filter (fun kv => (draftContent.lookup kv.1).isNone) ++ draftContent

/-- Modelled from the spec: the Executor component (`execute_draft`,
spec section 4.5) is not present under src/ — only the spec describes it.
For each plan step in order: a GENERAL step or an explicit
`general_assistance` action yields a synthetic successful `ToolExecution`
wrapping the draft message; otherwise the matching tool collaborator is
looked up by `tool_required`, an absent collaborator yields a failed
`ToolExecution` with error "Tool not available" and processing continues
with the next step, and a present collaborator is called on the merged
parameters with its `success` / `result` / `error` passed through. -/
def execute_draft
    (collabs : ToolType → Option (String → List (String × String) → ExecResult))
    (draftMessage : String) (draftContent : List (String × String))
    (steps : List TaskStep) : List ToolExecution :=
  steps.map (fun step =>
    let action := (step.parameters.lookup "action").getD ""
    if step.tool_required = ToolType.general ∨ action = "general_assistance" then
      { tool_type := step.tool_required, action := action,
        parameters := step.parameters, success := true,
        result := some [("message", draftMessage)], error := none }
    else
      match collabs step.tool_required with
      | none =>
          { tool_type := step.tool_required, action := action,
            parameters := step.parameters, success := false,
            result := none, error := some "Tool not available" }
      | some exec =>
          let merged := mergeParams step.parameters draftContent
          let r := exec action merged
          { tool_type := step.tool_required, action := action,
            parameters := merged, success := r.success,
            result := r.result, error := r.error })

/- Section: Interaction memory (memory.py, MemoryAgent) -/

/-- contracts.py `MemoryEntry`, restricted to its scalar fields (the
serialisation of execution results is plumbing the cap logic never
inspects). -/
structure MemoryEntry where
  entry_id : String
  user_query : String
  plan_summary : String
  sentiment : String
  timestamp : String

/-- memory.py `MemoryAgent.store_interaction`, acting on the decoded list
stored in the interactions file: append the new entry and, if the list now
exceeds 100 entries, keep only the last 100 (`interactions[-100:]`). -/
def store_interaction (interactions : List MemoryEntry) (entry : MemoryEntry) :
    List MemoryEntry :=
  let appended := interactions ++ [entry]
  if appended.length > 100 then appended.drop (appended.length - 100) else appended

/- Section: Helper lemmas -/

/-- Bridging lemma: the decidable test `length = 0` agrees with `isEmpty`. -/
theorem decide_length_eq_zero (l : List String) : decide (l.length = 0) = l.isEmpty := by
  cases l <;> simp

/-- Flag derivation of `mkReview` for an arbitrary rubric triple. -/
theorem mkReview_flags (t : ℚ) (r : List String × List String × ℚ) :
    ((mkReview t r).requires_user_review
        = (decide ((mkReview t r).confidence_score < t) || !(mkReview t r).issues.isEmpty))
  ∧ ((mkReview t r).approved
        = (decide (t ≤ (mkReview t r).confidence_score) && (mkReview t r).issues.isEmpty))
  ∧ (((mkReview t r).approved && !(mkReview t r).issues.isEmpty) = false) := by
  obtain ⟨is, sg, sc⟩ := r
  simp only [mkReview]
  refine ⟨?_, ?_, ?_⟩ <;> cases is <;> simp [ge_iff_le]

/- Section: Claim theorems -/

/-- C3: for every draft and configured threshold (default 0.7 in the
source), `requires_user_review` holds exactly when the confidence score is
below the threshold or the issues list is non-empty, `approved` holds
exactly when the score reaches the threshold and the issues list is empty,
and consequently a draft with any issue is never approved. -/
theorem c3_review_gating (t : ℚ) (d : Draft) :
    ((review_draft t d).requires_user_review
        = (decide ((review_draft t d).confidence_score < t)
            || !(review_draft t d).issues.isEmpty))
  ∧ ((review_draft t d).approved
        = (decide (t ≤ (review_draft t d).confidence_score)
            && (review_draft t d).issues.isEmpty))
  ∧ (((review_draft t d).approved && !(review_draft t d).issues.isEmpty) = false) := by
  obtain ⟨tt, content⟩ := d
  cases tt <;> simpa only [review_draft] using mkReview_flags t _

/-- C9: after every `store_interaction` the persisted history has at most
100 entries, its length is exactly `min (previous length + 1) 100`, and it
is a suffix of the history with the new entry appended — so when the cap is
exceeded exactly the 100 most recently appended entries survive and the
oldest are evicted. -/
theorem c9_store_interaction_cap (interactions : List MemoryEntry) (entry : MemoryEntry) :
    (store_interaction interactions entry).length ≤ 100
  ∧ (store_interaction interactions entry).length = min (interactions.length + 1) 100
  ∧ List.IsSuffix (store_interaction interactions entry) (interactions ++ [entry]) := by
  unfold store_interaction
  by_cases h : (interactions ++ [entry]).length > 100
  · rw [if_pos h]
    simp only [List.length_append, List.length_singleton] at h ⊢
    refine ⟨?_, ?_, List.drop_suffix _ _⟩ <;> simp [List.length_drop] <;> omega
  · rw [if_neg h]
    simp only [List.length_append, List.length_singleton] at h ⊢
    exact ⟨by omega, by omega, List.suffix_refl _⟩

/-- C10: constructed without an LLM client, the planner raises
`RuntimeError` (an `Except.error`) for every user query; no plan — not even
the degraded single-GENERAL-step fallback — is produced. -/
theorem c10_create_plan_requires_llm (docs : List (String × String)) (q : String)
    (tools : List ToolType) :
    create_plan none docs q tools =
      Except.error "LLM client is required for query analysis but not initialized." := rfl

/-- C6: a plan step whose required tool collaborator is not configured does
not raise: it yields a failed `ToolExecution` with error "Tool not
available", the executor emits one execution per step so later steps are
still processed, and in particular a single CALENDLY step with no CALENDLY
collaborator yields exactly one such failed execution. -/
theorem c6_executor_missing_tool
    (collabs : ToolType → Option (String → List (String × String) → ExecResult))
    (draftMessage : String) (draftContent : List (String × String))
    (step : TaskStep) (steps : List TaskStep)
    (hnone : collabs ToolType.calendly = none)
    (htool : step.tool_required = ToolType.calendly)
    (hact : (step.parameters.lookup "action").getD "" ≠ "general_assistance") :
    execute_draft collabs draftMessage draftContent [step] =
      [{ tool_type := ToolType.calendly
         action := (step.parameters.lookup "action").getD ""
         parameters := step.parameters
         success := false
         result := none
         error := some "Tool not available" }]
  ∧ (execute_draft collabs draftMessage draftContent steps).length = steps.length := by
  constructor
  · simp only [execute_draft, List.map]
    rw [htool]
    rw [if_neg]
    · rw [hnone]
    · rintro (h | h)
      · exact absurd h (by decide)
      · exact hact h
  · simp [execute_draft]

/-- A five-penalty rubric total capped below at 0 equals 1 exactly when no
penalty fired. -/
theorem score_one_iff (b1 b2 b3 b4 b5 : Bool) :
    (max 0 (1 - (if b1 then (3:ℚ)/10 else 0) - (if b2 then 2/10 else 0)
      - (if b3 then 3/10 else 0) - (if b4 then 2/10 else 0)
      - (if b5 then 1/10 else 0)) = 1)
  ↔ (b1 = false ∧ b2 = false ∧ b3 = false ∧ b4 = false ∧ b5 = false) := by
  cases b1 <;> cases b2 <;> cases b3 <;> cases b4 <;> cases b5 <;>
    norm_num [max_def]

/-- The two rubric conditions about the `to` field hold exactly when the
field value contains an "@". -/
theorem email_to_atom (o : Option String) :
    ((!(truthy o)) = false ∧ (truthy o && !(strContains (o.getD "") "@")) = false)
  ↔ strContains (o.getD "") "@" = true := by
  cases o with
  | none => decide
  | some s =>
    by_cases hs : s = ""
    · subst hs; decide
    · simp [truthy, hs]

/-- The subject rubric condition holds exactly when the field value is a
non-empty string. -/
theorem email_subject_atom (o : Option String) :
    (!(truthy o)) = false ↔ o.getD "" ≠ "" := by
  cases o with
  | none => decide
  | some s =>
    by_cases hs : s = ""
    · subst hs; decide
    · simp [truthy, hs]

/-- The two rubric conditions about the `body` field hold exactly when its
value has length at least 10 and has no "placeholder" substring. -/
theorem email_body_atom (o : Option String) :
    (((!(truthy o)) || decide ((o.getD "").length < 10)) = false
      ∧ (truthy o && strContains (pyLower (o.getD "")) "placeholder") = false)
  ↔ (10 ≤ (o.getD "").length
      ∧ strContains (pyLower (o.getD "")) "placeholder" = false) := by
  cases o with
  | none => decide
  | some s =>
    by_cases hs : s = ""
    · subst hs; decide
    · simp [truthy, hs, Nat.not_lt]

/-- C2: an EMAIL draft scores exactly 1.0 under `review_draft` iff the
content has a `to` value containing "@", a non-empty `subject`, and a `body`
of length at least 10 with no case-insensitive "placeholder" substring. -/
theorem c2_email_score_one_iff (t : ℚ) (content : List (String × String)) :
    ((review_draft t { task_type := TaskType.email, content := content }).confidence_score = 1)
  ↔ (strContains ((content.lookup "to").getD "") "@" = true
      ∧ (content.lookup "subject").getD "" ≠ ""
      ∧ 10 ≤ ((content.lookup "body").getD "").length
      ∧ strContains (pyLower ((content.lookup "body").getD "")) "placeholder" = false) := by
  have hscore : (review_draft t { task_type := TaskType.email, content := content }).confidence_score
      = (reviewEmail content).2.2 := rfl
  rw [hscore]
  simp only [reviewEmail, getContent]
  rw [score_one_iff]
  constructor
  · rintro ⟨h1, h2, h3, h4, h5⟩
    have hTo := (email_to_atom (content.lookup "to")).mp ⟨h1, h4⟩
    have hSub := (email_subject_atom (content.lookup "subject")).mp h2
    have hBody := (email_body_atom (content.lookup "body")).mp ⟨h3, h5⟩
    exact ⟨hTo, hSub, hBody.1, hBody.2⟩
  · rintro ⟨hA, hS, hL, hP⟩
    have hTo := (email_to_atom (content.lookup "to")).mpr hA
    have hSub := (email_subject_atom (content.lookup "subject")).mpr hS
    have hBody := (email_body_atom (content.lookup "body")).mpr ⟨hL, hP⟩
    exact ⟨hTo.1, hSub, hBody.1, hTo.2, hBody.2⟩

/-- C4: if the intent-classifier collaborator raises on every call, the
planner produces the degraded plan with exactly one GENERAL step carrying
the `general_assistance` action, an empty `missing_info` list and
`is_complete = true`; and every plan `create_plan` produces has
`is_complete` true exactly when `missing_info` is empty. -/
theorem c4_classifier_failure_fallback
    (analyze : Classifier) (docs : List (String × String)) (q : String)
    (tools : List ToolType)
    (hfail : ∀ a b c, analyze a b c = none) :
    (create_plan (some analyze) docs q tools = Except.ok
        { user_query := q
          steps := [{ description := "Process general user request"
                      tool_required := ToolType.general
                      parameters := [("action", "general_assistance"), ("query", q)] }]
          required_tools := [ToolType.general]
          missing_info := []
          is_complete := true })
  ∧ (∀ llm ds q2 ts plan, create_plan llm ds q2 ts = Except.ok plan →
        plan.is_complete = plan.missing_info.isEmpty) := by
  constructor
  · have h1 : analyzeQuery (some analyze) docs q tools = Except.ok
        [{ description := "Process general user request"
           tool_required := ToolType.general
           parameters := [("action", "general_assistance"), ("query", q)] }] := by
      simp only [analyzeQuery, hfail]
    unfold create_plan
    rw [h1]
    simp only [identifyMissingInfo, hfail]
    rfl
  · intro llm ds q2 ts plan h
    cases llm with
    | none => simp [create_plan, analyzeQuery] at h
    | some a =>
      revert h
      unfold create_plan
      cases hA : analyzeQuery (some a) ds q2 ts with
      | error e => intro h; cases h
      | ok steps =>
        intro h
        have hp : plan = { user_query := q2
                           steps := steps
                           required_tools := (steps.map (fun s => s.tool_required)).dedup
                           missing_info := identifyMissingInfo (some a) ds q2 steps
                           is_complete := decide ((identifyMissingInfo (some a) ds q2 steps).length = 0) } := by
          cases h; rfl
        rw [hp]
        exact decide_length_eq_zero _

/-- Witness for C4 at a concrete always-failing classifier. -/
theorem c4_classifier_failure_fallback_witness :
    create_plan (some (fun _ _ _ => none)) [] "book a meeting tomorrow" [ToolType.calendly]
      = Except.ok
        { user_query := "book a meeting tomorrow"
          steps := [{ description := "Process general user request"
                      tool_required := ToolType.general
                      parameters := [("action", "general_assistance"),
                                     ("query", "book a meeting tomorrow")] }]
          required_tools := [ToolType.general]
          missing_info := []
          is_complete := true } :=
  (c4_classifier_failure_fallback (fun _ _ _ => none) [] "book a meeting tomorrow"
      [ToolType.calendly] (fun _ _ _ => rfl)).1

/-- Bool-level characterisation of the validation gate: it returns an error
exactly when one of the six checks fires. -/
theorem validate_ne_ok_iff (q s b : String) :
    (validate_email_content q s b ≠ Except.ok ())
  ↔ ((queryPhrases q).any (fun p => strContains (pyLower b) p) = true
    ∨ problematicPhrases.any (fun p => strContains (pyLower b) p) = true
    ∨ (pyStrip s).length < 3
    ∨ (pyStrip b).length < 20
    ∨ greetingTokens.any (fun g => strContains (pyLower b) g) = false
    ∨ closingTokens.any (fun c => strContains (pyLower b) c) = false) := by
  unfold validate_email_content
  cases hq : (queryPhrases q).any (fun p => strContains (pyLower b) p) <;>
  cases hp : problematicPhrases.any (fun p => strContains (pyLower b) p) <;>
  cases hg : greetingTokens.any (fun g => strContains (pyLower b) g) <;>
  cases hc : closingTokens.any (fun c => strContains (pyLower b) c) <;>
  by_cases hs : (pyStrip s).length < 3 <;>
  by_cases hb : (pyStrip b).length < 20 <;>
  simp [hq, hp, hg, hc, hs, hb]

/-- C5: the email-content acceptance gate rejects a model-generated
subject/body pair — by an error, never by repairing the pair — exactly when
one of the six conditions holds: a long comma-delimited fragment of the
(lowercased) user query occurs in the body, an assistant-framing phrase
occurs in the body, the trimmed subject is shorter than 3 characters, the
trimmed body is shorter than 20 characters, the body lacks every greeting
token, or the body lacks every closing token; and any validation error
surfaces out of `generate_email_content` as a generation failure. -/
theorem c5_email_validation_gate (q s b : String) :
    ((validate_email_content q s b ≠ Except.ok ())
      ↔ ((∃ p ∈ queryPhrases q, strContains (pyLower b) p = true)
        ∨ (∃ p ∈ problematicPhrases, strContains (pyLower b) p = true)
        ∨ (pyStrip s).length < 3
        ∨ (pyStrip b).length < 20
        ∨ (∀ g ∈ greetingTokens, strContains (pyLower b) g = false)
        ∨ (∀ c ∈ closingTokens, strContains (pyLower b) c = false)))
  ∧ (∀ e, validate_email_content q s b = Except.error e → s ≠ "" → b ≠ "" →
      generate_email_content (some s) (some b) q
        = Except.error ("Unexpected error in email generation: " ++ e)) := by
  constructor
  · rw [validate_ne_ok_iff]
    simp [List.any_eq_true, List.any_eq_false]
  · intro e he hs hb
    simp only [generate_email_content, truthy, Option.getD, he]
    simp [hs, hb]

/-- Witness for C5: a concrete pair the gate rejects for a too-short
subject; the rejection surfaces as a generation failure. -/
theorem c5_email_validation_gate_witness :
    generate_email_content (some "Hi") (some "short body text") "hello"
      = Except.error ("Unexpected error in email generation: "
          ++ "Email subject is too short or empty") :=
  (c5_email_validation_gate "hello" "Hi" "short body text").2
    "Email subject is too short or empty" (by rfl) (by decide) (by decide)

/-- A concrete CALENDLY step for the C6 witness. -/
def calendlyStepEx : TaskStep :=
  { description := "Check Calendly availability"
    tool_required := ToolType.calendly
    parameters := [("action", "list_available_slots")] }

/-- Witness for C6: with no collaborators configured, a plan holding one
CALENDLY step yields exactly one failed execution with error
"Tool not available". -/
theorem c6_executor_missing_tool_witness :
    execute_draft (fun _ => none) "hello" [] [calendlyStepEx] =
      [{ tool_type := ToolType.calendly
         action := "list_available_slots"
         parameters := [("action", "list_available_slots")]
         success := false
         result := none
         error := some "Tool not available" }]
  ∧ (execute_draft (fun _ => none) "hello" [] [calendlyStepEx]).length = 1 :=
  c6_executor_missing_tool (fun _ => none) "hello" [] calendlyStepEx [calendlyStepEx]
    rfl rfl (by decide)

/-- C1: the slot-filling dialogue asks for at most one field per prompt —
whenever information is missing the prompt helper returns exactly one
(field, question) pair — and the opportunistic free-text extraction passes
never overwrite or clear a slot that is already filled, for the email slots
to / subject / content and the CRM slots name / email alike. -/
theorem c1_single_prompt_and_monotone_slots
    (o : EmailExtractOracle) (findEmails : String → List String)
    (matchName : String → Option String) (p : PendingEmail) (c : PendingCrm)
    (text : String) :
    (get_missing_email_info p ≠ [] → ∃ fm, prompt_next_email_field p = some fm)
  ∧ (get_missing_crm_info c ≠ [] → ∃ fm, prompt_next_crm_field c = some fm)
  ∧ (truthy p.toField = true → (extract_email_info o p text).toField = p.toField)
  ∧ (truthy p.subject = true → (extract_email_info o p text).subject = p.subject)
  ∧ (truthy p.content = true → (extract_email_info o p text).content = p.content)
  ∧ (truthy c.name = true → (extract_crm_info findEmails matchName c text).name = c.name)
  ∧ (truthy c.email = true → (extract_crm_info findEmails matchName c text).email = c.email) := by
  refine ⟨?_, ?_, ?_, ?_, ?_, ?_, ?_⟩
  · intro hm
    by_cases h1 : truthy p.toField <;> by_cases h2 : truthy p.subject <;>
      by_cases h3 : truthy p.content <;>
      simp_all [get_missing_email_info, prompt_next_email_field]
  · intro hm
    by_cases h1 : truthy c.name <;> by_cases h2 : truthy c.email <;>
      simp_all [get_missing_crm_info, prompt_next_crm_field]
  · intro h
    unfold extract_email_info
    cases o.findEmails text <;> cases o.matchSubject text <;>
      cases o.findDocument text <;> simp [h] <;>
      repeat' first | split | simp_all
  · intro h
    unfold extract_email_info
    cases o.findEmails text <;> cases o.matchSubject text <;>
      cases o.findDocument text <;> simp [h] <;>
      repeat' first | split | simp_all
  · intro h
    unfold extract_email_info
    cases o.findEmails text <;> cases o.matchSubject text <;>
      cases o.findDocument text <;> simp [h] <;>
      repeat' first | split | simp_all
  · intro h
    unfold extract_crm_info
    cases findEmails text <;> cases matchName text <;> simp [h] <;>
      split_ifs <;> simp_all
  · intro h
    unfold extract_crm_info
    cases findEmails text <;> cases matchName text <;> simp [h] <;>
      split_ifs <;> simp_all

/-- A concrete extraction oracle for the C1 witness. -/
def oracleEx : EmailExtractOracle :=
  { findEmails := fun _ => ["other@x.com"]
    matchSubject := fun _ => some "Other topic"
    findDocument := fun _ => none
    loadDoc := fun _ => none }

/-- A pending email state with the recipient already filled. -/
def pendingEmailEx : PendingEmail :=
  { toField := some "bob@co.com", subject := none, content := none,
    original_query := some "send an email to bob@co.com",
    content_requirement := none, document_reference := none }

/-- A pending CRM state with the contact email already filled. -/
def pendingCrmEx : PendingCrm :=
  { name := none, email := some "jane@company.com", original_query := none }

/-- Witness for C1: on concrete states, a missing email field yields a
single prompt, and extraction over a text carrying a different address
leaves the already-filled recipient and CRM email untouched. -/
theorem c1_single_prompt_and_monotone_slots_witness :
    (∃ fm, prompt_next_email_field pendingEmailEx = some fm)
  ∧ (extract_email_info oracleEx pendingEmailEx
        "actually send it to other@x.com, subject is Other topic").toField
      = some "bob@co.com"
  ∧ (extract_crm_info (fun _ => ["zed@x.com"]) (fun _ => some "Zed") pendingCrmEx
        "name is Zed zed@x.com").email = some "jane@company.com" :=
  ⟨(c1_single_prompt_and_monotone_slots oracleEx (fun _ => ["zed@x.com"])
      (fun _ => some "Zed") pendingEmailEx pendingCrmEx
      "actually send it to other@x.com, subject is Other topic").1 (by decide),
   (c1_single_prompt_and_monotone_slots oracleEx (fun _ => ["zed@x.com"])
      (fun _ => some "Zed") pendingEmailEx pendingCrmEx
      "actually send it to other@x.com, subject is Other topic").2.2.1 (by decide),
   (c1_single_prompt_and_monotone_slots oracleEx (fun _ => ["zed@x.com"])
      (fun _ => some "Zed") pendingEmailEx pendingCrmEx
      "name is Zed zed@x.com").2.2.2.2.2.2 (by decide)⟩

/-- Unfolds a negative `commandWords.contains` fact into the seven
inequalities the routing conditions need. -/
theorem commandWords_contains_false (a : String)
    (h : commandWords.contains a = false) :
    a ≠ "help" ∧ a ≠ "status" ∧ a ≠ "memory" ∧ a ≠ "clear"
      ∧ a ≠ "quit" ∧ a ≠ "exit" ∧ a ≠ "q" := by
  simp [commandWords, List.contains] at h
  tauto

/-- C7: with a slot-filling dialogue pending, a recognised cancel keyword
input unconditionally resets every piece of pending dialogue state (both
pending dicts, the current task type and the current prompt field), the main
loop treats the turn as handled, and the next non-empty non-command input on
the reset state is routed to `process_user_request` as a brand-new
request. -/
theorem c7_cancel_resets_dialogue
    (emailFollowup crmFollowup : CliState → String → Bool × CliState)
    (st : CliState) (inp nxt : String)
    (htask : truthy st.current_task_type = true)
    (hstr : pyStrip inp = inp)
    (hkw : pyLower inp = "cancel" ∨ pyLower inp = "stop") :
    handle_missing_info_response emailFollowup crmFollowup st inp =
      (true, { pending_email := emptyPendingEmail
               pending_crm := emptyPendingCrm
               current_task_type := none
               current_prompt_field := none })
  ∧ main_loop_route emailFollowup crmFollowup st inp =
      (Route.handledPending, clear_all_pending st)
  ∧ (nxt ≠ "" → commandWords.contains (pyLower nxt) = false →
      main_loop_route emailFollowup crmFollowup (clear_all_pending st) nxt =
        (Route.newRequest, clear_all_pending st)) := by
  have hne : inp ≠ "" := by
    intro he
    rcases hkw with h | h <;> rw [he] at h <;> exact absurd h (by decide)
  have hmain : handle_missing_info_response emailFollowup crmFollowup st inp =
      (true, clear_all_pending st) := by
    unfold handle_missing_info_response
    rw [htask]
    simp only [Bool.not_true, Bool.false_eq_true, if_false]
    rw [hstr, if_pos hkw]
  refine ⟨hmain, ?_, ?_⟩
  · unfold main_loop_route
    rw [if_neg hne]
    have hcl : commandWords.contains (pyLower inp) = false := by
      rcases hkw with h | h <;> rw [h] <;> decide
    simp only [htask, hcl, Bool.not_false, Bool.and_self, if_true]
    rw [hmain]
  · intro hn hc
    obtain ⟨d1, d2, d3, d4, d5, d6, d7⟩ := commandWords_contains_false _ hc
    unfold main_loop_route
    rw [if_neg hn]
    have h0 : truthy (clear_all_pending st).current_task_type = false := rfl
    simp only [h0, Bool.false_and, Bool.false_eq_true, if_false]
    unfold afterCommands
    rw [if_neg (by tauto), if_neg d1, if_neg d2, if_neg d3, if_neg d4]
    have hpe : pendingEmailAny (clear_all_pending st).pending_email = false := rfl
    rw [hpe]
    simp

/-- A concrete mid-dialogue session for the C7 witness: an email dialogue is
pending with the recipient collected and the subject being asked for. -/
def cliStateEx : CliState :=
  { pending_email := pendingEmailEx
    pending_crm := emptyPendingCrm
    current_task_type := some "email"
    current_prompt_field := some ("email", "subject") }

/-- Witness for C7: the literal input "CANCEL" mid-dialogue resets all
pending state, and the following free-text request is routed as a brand-new
request. -/
theorem c7_cancel_resets_dialogue_witness :
    handle_missing_info_response (fun s _ => (true, s)) (fun s _ => (true, s))
        cliStateEx "CANCEL" =
      (true, { pending_email := emptyPendingEmail
               pending_crm := emptyPendingCrm
               current_task_type := none
               current_prompt_field := none })
  ∧ main_loop_route (fun s _ => (true, s)) (fun s _ => (true, s))
        (clear_all_pending cliStateEx) "add a contact for jane@co.com" =
      (Route.newRequest, clear_all_pending cliStateEx) :=
  ⟨(c7_cancel_resets_dialogue (fun s _ => (true, s)) (fun s _ => (true, s))
      cliStateEx "CANCEL" "add a contact for jane@co.com" (by decide) (by decide)
      (Or.inl (by decide))).1,
   (c7_cancel_resets_dialogue (fun s _ => (true, s)) (fun s _ => (true, s))
      cliStateEx "CANCEL" "add a contact for jane@co.com" (by decide) (by decide)
      (Or.inl (by decide))).2.2 (by decide) (by decide)⟩

/-- C8: the dialogue prompts follow the fixed, non-configurable order —
recipient before subject before content for email, contact name before
contact email for CRM — since the prompt helpers agree everywhere with the
order written out from the spec text, and a prompt never targets a field
that is already filled. -/
theorem c8_fixed_prompt_order (p : PendingEmail) (c : PendingCrm) :
    prompt_next_email_field p = spec_email_prompt_order p
  ∧ prompt_next_crm_field c = spec_crm_prompt_order c
  ∧ (∀ f m, prompt_next_email_field p = some (f, m) → emailFieldFilled p f = false)
  ∧ (∀ f m, prompt_next_crm_field c = some (f, m) → crmFieldFilled c f = false) := by
  refine ⟨?_, ?_, ?_, ?_⟩
  · by_cases h1 : truthy p.toField <;> by_cases h2 : truthy p.subject <;>
      by_cases h3 : truthy p.content <;>
      simp [prompt_next_email_field, get_missing_email_info, spec_email_prompt_order,
        h1, h2, h3]
  · by_cases h1 : truthy c.name <;> by_cases h2 : truthy c.email <;>
      simp [prompt_next_crm_field, get_missing_crm_info, spec_crm_prompt_order, h1, h2]
  · intro f m hf
    by_cases h1 : truthy p.toField <;> by_cases h2 : truthy p.subject <;>
      by_cases h3 : truthy p.content <;>
      simp [prompt_next_email_field, get_missing_email_info, h1, h2, h3] at hf <;>
      (obtain ⟨rfl, rfl⟩ := hf) <;>
      simp [emailFieldFilled, h1, h2, h3]
  · intro f m hf
    by_cases h1 : truthy c.name <;> by_cases h2 : truthy c.email <;>
      simp [prompt_next_crm_field, get_missing_crm_info, h1, h2] at hf <;>
      (obtain ⟨rfl, rfl⟩ := hf) <;>
      simp [crmFieldFilled, h1, h2]

/-- Witness for C8 at a concrete state with the recipient already filled:
the next prompt targets the subject — a field that is not yet filled — and
never the recipient again. -/
theorem c8_fixed_prompt_order_witness :
    prompt_next_email_field pendingEmailEx = spec_email_prompt_order pendingEmailEx
  ∧ emailFieldFilled pendingEmailEx ("email", "subject") = false :=
  ⟨(c8_fixed_prompt_order pendingEmailEx pendingCrmEx).1,
   (c8_fixed_prompt_order pendingEmailEx pendingCrmEx).2.2.1 ("email", "subject")
     "What should be the email subject?" (by decide)⟩
